import Mathlib

/-
Verification of the audio ring-buffer synchronization and framebuffer code of
the HMH repository (src/private/entry.cpp, src/private/game.cpp).

The frame loop in WinMain (entry.cpp) computes, each iteration, the byte range
of the DirectSound secondary buffer to lock and fill.  All DWORD / uint32_t
arithmetic of the C source is embedded over Nat with explicit reduction
modulo 2^32 where the C computation wraps.
-/

/-- Modulus of DWORD / uint32_t arithmetic in the C source. -/
def DWORD_MOD : Nat := 2 ^ 32

/-- entry.cpp line 452: BytesPerSample = sizeof(int16_t) * 2, the size of one
    interleaved stereo sample frame. -/
def BytesPerSample : Nat := 2 * 2

/-- entry.cpp lines 455 and 565: the secondary-buffer size 44100 * BytesPerSample
    bytes, fixed at initialization. -/
def SoundBufferSize : Nat := 44100 * BytesPerSample

/-- entry.cpp line 450: Hz = 256, the square-wave tone frequency. -/
def toneHz : Nat := 256

/-- entry.cpp line 451: SquareWavePeriod = 44100 / Hz (integer division). -/
def SquareWavePeriod : Nat := 44100 / toneHz

/-- entry.cpp line 565: BytesToLock = SampleIndex * BytesPerSample % (44100 * BytesPerSample).
    SampleIndex is uint32_t, so the product wraps at 2^32 before the reduction
    modulo the buffer size. -/
def BytesToLock (SampleIndex : Nat) : Nat :=
  SampleIndex * BytesPerSample % DWORD_MOD % SoundBufferSize

/-- entry.cpp lines 566-576: the byte count to write, computed from BytesToLock and
    the hardware play cursor reported by GetCurrentPosition.  The code compares
    BytesToLock against PlayCursor directly (no latency term).  In the wrap branch
    the two DWORD statements (subtraction, then +=) each reduce modulo 2^32;
    Nat subtraction agrees with DWORD subtraction in both branches because the
    branch conditions make the differences nonnegative. -/
def BytesToWrite (SampleIndex PlayCursor : Nat) : Nat :=
  if BytesToLock SampleIndex > PlayCursor then
    ((SoundBufferSize - BytesToLock SampleIndex) % DWORD_MOD + PlayCursor) % DWORD_MOD
  else
    (PlayCursor - BytesToLock SampleIndex) % DWORD_MOD

/-- The byte-count formula as the specification states it (spec section 4.1), written
    from the spec words for comparison with the code computation. -/
def specByteCountToWrite (byteOffsetToLock targetCursor bufferSizeBytes : Nat) : Nat :=
  if byteOffsetToLock > targetCursor then
    bufferSizeBytes - byteOffsetToLock + targetCursor
  else
    targetCursor - byteOffsetToLock

/-- The target cursor as the specification states it (spec section 4.1): the play
    cursor plus latencySampleCount samples of lead, modulo the buffer size.
    Written from the spec words for comparison with the code computation. -/
def specTargetCursor (hardwarePlayCursorBytes latencySampleCount bytesPerSample bufferSizeBytes : Nat) : Nat :=
  (hardwarePlayCursorBytes + latencySampleCount * bytesPerSample) % bufferSizeBytes

theorem SoundBufferSize_eq : SoundBufferSize = 176400 := rfl

theorem DWORD_MOD_eq : DWORD_MOD = 4294967296 := rfl

theorem BytesToLock_lt (SampleIndex : Nat) : BytesToLock SampleIndex < SoundBufferSize :=
  Nat.mod_lt _ (by decide)

/-- The code computation of BytesToWrite, rewritten without the redundant DWORD
    reductions, valid for an in-range play cursor. -/
theorem BytesToWrite_eq (SampleIndex PlayCursor : Nat) (h : PlayCursor < SoundBufferSize) :
    BytesToWrite SampleIndex PlayCursor =
      if BytesToLock SampleIndex > PlayCursor then
        SoundBufferSize - BytesToLock SampleIndex + PlayCursor
      else
        PlayCursor - BytesToLock SampleIndex := by
  have hlock := BytesToLock_lt SampleIndex
  rw [SoundBufferSize_eq] at hlock h
  unfold BytesToWrite
  rw [SoundBufferSize_eq, DWORD_MOD_eq]
  by_cases hc : BytesToLock SampleIndex > PlayCursor
  · rw [if_pos hc, if_pos hc, Nat.mod_eq_of_lt (by omega), Nat.mod_eq_of_lt (by omega)]
  · rw [if_neg hc, if_neg hc, Nat.mod_eq_of_lt (by omega)]

/-- Claim C1: for every ring state and every in-range play cursor, the per-frame
    lock-region computation sets byteOffsetToLock = (sampleIndex * bytesPerSample)
    mod bufferSizeBytes (in the uint32 arithmetic of the state) and returns
    byteCountToWrite = (bufferSizeBytes - byteOffsetToLock) + targetCursor when
    byteOffsetToLock > targetCursor, and targetCursor - byteOffsetToLock otherwise.
    In the code the target cursor is the hardware play cursor itself. -/
theorem C1_lock_region_formula (SampleIndex PlayCursor : Nat)
    (h : PlayCursor < SoundBufferSize) :
    BytesToLock SampleIndex = SampleIndex * BytesPerSample % DWORD_MOD % SoundBufferSize ∧
    BytesToWrite SampleIndex PlayCursor =
      specByteCountToWrite (BytesToLock SampleIndex) PlayCursor SoundBufferSize := by
  refine ⟨rfl, ?_⟩
  rw [BytesToWrite_eq SampleIndex PlayCursor h]
  unfold specByteCountToWrite
  by_cases hc : BytesToLock SampleIndex > PlayCursor
  · rw [if_pos hc]
  · rw [if_neg hc]

theorem C1_lock_region_formula_witness :
    1000 < SoundBufferSize ∧
    (BytesToLock 300 = 300 * BytesPerSample % DWORD_MOD % SoundBufferSize ∧
     BytesToWrite 300 1000 = specByteCountToWrite (BytesToLock 300) 1000 SoundBufferSize) :=
  ⟨by decide, C1_lock_region_formula 300 1000 (by decide)⟩

/-- Claim C2 counterexample: the code adds no latency lead to the play cursor.
    At SampleIndex = 43500 (byteOffsetToLock = 174000) and PlayCursor = 0 the code
    returns 2400 bytes, while the byte count the claim prescribes — against
    targetCursor = (0 + 3200 * 4) mod bufferSizeBytes = 12800 — is 15200. -/
theorem C2_no_latency_counterexample :
    BytesToWrite 43500 0 = 2400 ∧
    specByteCountToWrite (BytesToLock 43500)
      (specTargetCursor 0 3200 BytesPerSample SoundBufferSize) SoundBufferSize = 15200 ∧
    (2400 : Nat) ≠ 15200 := by
  refine ⟨by decide, by decide, by decide⟩

/-- Claim C2 amended: the lock-region computation targets the hardware play cursor
    itself (the code maintains no latency lead; latencySampleCount does not appear),
    so the returned region ends exactly at the play cursor: byteOffsetToLock plus
    byteCountToWrite is congruent to the play cursor modulo the buffer size.  In
    particular, with byteOffsetToLock = 174000 and playCursor = 0 the result is
    byteCountToWrite = 2400. -/
theorem C2_target_is_play_cursor (SampleIndex PlayCursor : Nat)
    (h : PlayCursor < SoundBufferSize) :
    (BytesToLock SampleIndex + BytesToWrite SampleIndex PlayCursor) % SoundBufferSize
      = PlayCursor ∧
    BytesToWrite 43500 0 = 2400 := by
  have hlock := BytesToLock_lt SampleIndex
  rw [BytesToWrite_eq SampleIndex PlayCursor h]
  rw [SoundBufferSize_eq] at hlock h ⊢
  refine ⟨?_, by decide⟩
  by_cases hc : BytesToLock SampleIndex > PlayCursor
  · rw [if_pos hc]
    have he : BytesToLock SampleIndex + (176400 - BytesToLock SampleIndex + PlayCursor)
        = 176400 + PlayCursor := by omega
    rw [he, Nat.add_mod_left, Nat.mod_eq_of_lt h]
  · rw [if_neg hc]
    have he : BytesToLock SampleIndex + (PlayCursor - BytesToLock SampleIndex) = PlayCursor := by
      omega
    rw [he, Nat.mod_eq_of_lt h]

theorem C2_target_is_play_cursor_witness :
    0 < SoundBufferSize ∧
    ((BytesToLock 43500 + BytesToWrite 43500 0) % SoundBufferSize = 0 ∧
     BytesToWrite 43500 0 = 2400) :=
  ⟨by decide, C2_target_is_play_cursor 43500 0 (by decide)⟩

/-- Claim C3: for all sampleIndex and in-range playCursor, the computation returns
    byteCountToWrite in the interval from 0 to bufferSizeBytes, and byteOffsetToLock
    plus byteCountToWrite is congruent to the target cursor (the play cursor, in the
    code) modulo the buffer size. -/
theorem C3_count_bounds_and_target (SampleIndex PlayCursor : Nat)
    (h : PlayCursor < SoundBufferSize) :
    0 ≤ BytesToWrite SampleIndex PlayCursor ∧
    BytesToWrite SampleIndex PlayCursor ≤ SoundBufferSize ∧
    (BytesToLock SampleIndex + BytesToWrite SampleIndex PlayCursor) % SoundBufferSize
      = PlayCursor := by
  have hlock := BytesToLock_lt SampleIndex
  refine ⟨Nat.zero_le _, ?_, ?_⟩
  · rw [BytesToWrite_eq SampleIndex PlayCursor h]
    rw [SoundBufferSize_eq] at hlock h ⊢
    by_cases hc : BytesToLock SampleIndex > PlayCursor
    · rw [if_pos hc]; omega
    · rw [if_neg hc]; omega
  · rw [BytesToWrite_eq SampleIndex PlayCursor h]
    rw [SoundBufferSize_eq] at hlock h ⊢
    by_cases hc : BytesToLock SampleIndex > PlayCursor
    · rw [if_pos hc]
      have he : BytesToLock SampleIndex + (176400 - BytesToLock SampleIndex + PlayCursor)
          = 176400 + PlayCursor := by omega
      rw [he, Nat.add_mod_left, Nat.mod_eq_of_lt h]
    · rw [if_neg hc]
      have he : BytesToLock SampleIndex + (PlayCursor - BytesToLock SampleIndex) = PlayCursor := by
        omega
      rw [he, Nat.mod_eq_of_lt h]

theorem C3_count_bounds_and_target_witness :
    1000 < SoundBufferSize ∧
    (0 ≤ BytesToWrite 43500 1000 ∧
     BytesToWrite 43500 1000 ≤ SoundBufferSize ∧
     (BytesToLock 43500 + BytesToWrite 43500 1000) % SoundBufferSize = 1000) :=
  ⟨by decide, C3_count_bounds_and_target 43500 1000 (by decide)⟩

/-- Claim C5 counterexample: with SampleIndex = 0 and a hardware cursor of 200000
    (outside the 176400-byte buffer) the code performs no rejection: the same
    subtraction runs and returns byteCountToWrite = 200000, exceeding the buffer
    size.  No invalid-cursor condition exists anywhere in the computation. -/
theorem C5_invalid_cursor_counterexample :
    BytesToWrite 0 200000 = 200000 ∧ SoundBufferSize < 200000 := by
  refine ⟨by decide, by decide⟩

/-- Claim C5 amended: the code does not validate the hardware cursor.  A cursor at
    or beyond the buffer size flows into the same arithmetic (here with
    byteOffsetToLock = 0) and the full out-of-range value is returned as the byte
    count, so counts exceeding bufferSizeBytes are produced and nothing signals an
    invalid-cursor condition. -/
theorem C5_no_validation (PlayCursor : Nat) (_h1 : SoundBufferSize ≤ PlayCursor)
    (h2 : PlayCursor < DWORD_MOD) :
    BytesToWrite 0 PlayCursor = PlayCursor := by
  unfold BytesToWrite
  have hlock : BytesToLock 0 = 0 := by decide
  rw [hlock]
  rw [if_neg (by omega)]
  rw [Nat.sub_zero, Nat.mod_eq_of_lt h2]

theorem C5_no_validation_witness :
    SoundBufferSize ≤ 200000 ∧ 200000 < DWORD_MOD ∧ BytesToWrite 0 200000 = 200000 :=
  ⟨by decide, by decide, C5_no_validation 200000 (by decide) (by decide)⟩

/-
The square-wave fill loop of WinMain (entry.cpp lines 588-634) and the sine
sample producer GameOutputSound (game.cpp lines 6-22).
-/

/-- entry.cpp lines 597 and 611: the square-wave sample value generated for the
    current SampleIndex: 16000 when (SampleIndex / (SquareWavePeriod / 2)) % 2 is
    nonzero, -16000 otherwise (the C ternary tests for a nonzero remainder). -/
def SquareSampleValue (SampleIndex : Nat) : Int :=
  if SampleIndex / (SquareWavePeriod / 2) % 2 ≠ 0 then 16000 else -16000

/-- entry.cpp lines 594-601 (identically 609-615): one region fill loop.  Each
    iteration writes the square-wave value for the current SampleIndex to the left
    and then the right channel and increments SampleIndex (uint32_t, wrapping at
    2^32).  Returns the written int16 values in order together with the final
    SampleIndex. -/
def FillLoop : Nat → Nat → List Int × Nat
  | SampleIndex, 0 => ([], SampleIndex)
  | SampleIndex, n + 1 =>
    (SquareSampleValue SampleIndex :: SquareSampleValue SampleIndex ::
       (FillLoop ((SampleIndex + 1) % DWORD_MOD) n).1,
     (FillLoop ((SampleIndex + 1) % DWORD_MOD) n).2)

/-- entry.cpp lines 590-616: on a successful lock the code fills Region1 and then
    Region2, each with Region_i_Size / BytesPerSample sample frames; the running
    SampleIndex carries over from the first region into the second. -/
def ProcessRegions (SampleIndex Region1Size Region2Size : Nat) : List Int × Nat :=
  ((FillLoop SampleIndex (Region1Size / BytesPerSample)).1 ++
     (FillLoop (FillLoop SampleIndex (Region1Size / BytesPerSample)).2
       (Region2Size / BytesPerSample)).1,
   (FillLoop (FillLoop SampleIndex (Region1Size / BytesPerSample)).2
     (Region2Size / BytesPerSample)).2)

/-- entry.cpp lines 583-634: the per-frame sound fill.  The Lock call either fails
    (none; lines 631-634 only print a debug message, SampleIndex is untouched) or
    grants two regions of the given byte sizes, which are then filled. -/
def FrameSoundStep (SampleIndex : Nat) (lockResult : Option (Nat × Nat)) : List Int × Nat :=
  match lockResult with
  | none => ([], SampleIndex)
  | some r => ProcessRegions SampleIndex r.1 r.2

/-- game.cpp lines 6-22, GameOutputSound.  The persistent float phase accumulator
    tSine is modelled as an abstract state of type S threaded exactly as the code
    threads it: each loop iteration emits one value computed from the current state
    (modelling (int16_t)(sinf(tSine) * ToneVolume)) to the left and right channels,
    then advances the state (modelling tSine += 2 * pi / WavePeriod, a fixed float
    step for a fixed toneHz).  A zero request performs no iteration, so it emits
    nothing and leaves the state untouched. -/
def GameOutputSound {S : Type} (emit : S → Int) (phaseStep : S → S) : S → Nat → List Int × S
  | tSine, 0 => ([], tSine)
  | tSine, n + 1 =>
    (emit tSine :: emit tSine :: (GameOutputSound emit phaseStep (phaseStep tSine) n).1,
     (GameOutputSound emit phaseStep (phaseStep tSine) n).2)

/-- Claim C4: whenever byteOffsetToLock equals the target cursor, the computed
    byteCountToWrite is 0 (the non-wrap branch runs, never a wrap to the full
    buffer), and the sample producer invoked with a zero sample count produces no
    output and leaves the phase accumulator unchanged. -/
theorem C4_zero_region (SampleIndex targetCursor : Nat) {S : Type}
    (emit : S → Int) (phaseStep : S → S) (tSine : S)
    (h : BytesToLock SampleIndex = targetCursor) :
    BytesToWrite SampleIndex targetCursor = 0 ∧
    GameOutputSound emit phaseStep tSine 0 = ([], tSine) := by
  constructor
  · unfold BytesToWrite
    rw [h]
    rw [if_neg (by omega), Nat.sub_self, Nat.zero_mod]
  · rfl

theorem C4_zero_region_witness :
    BytesToLock 44100 = 0 ∧
    (BytesToWrite 44100 0 = 0 ∧
     GameOutputSound (fun t : Int => t) (fun t : Int => t + 1) (5 : Int) 0 = ([], 5)) :=
  ⟨by decide, C4_zero_region 44100 0 (fun t : Int => t) (fun t : Int => t + 1) 5 (by decide)⟩

/-- Claim C9: for every pair of sample counts n1, n2 (at a fixed frequency, hence a
    fixed phase step), running the sample producer with n1 and then with n2 from the
    resulting phase produces exactly the output of a single run with n1 + n2, and
    ends in the same phase: the phase accumulator persists across calls, so the
    split introduces no seam.  In the model both sides perform the identical
    operations in the identical order, so the agreement is exact. -/
theorem C9_phase_continuity {S : Type} (emit : S → Int) (phaseStep : S → S)
    (tSine : S) (n1 n2 : Nat) :
    GameOutputSound emit phaseStep tSine (n1 + n2)
      = ((GameOutputSound emit phaseStep tSine n1).1 ++
          (GameOutputSound emit phaseStep
            (GameOutputSound emit phaseStep tSine n1).2 n2).1,
         (GameOutputSound emit phaseStep
           (GameOutputSound emit phaseStep tSine n1).2 n2).2) := by
  induction n1 generalizing tSine with
  | zero =>
    rw [Nat.zero_add]
    simp [GameOutputSound]
  | succ n ih =>
    have hn : n + 1 + n2 = (n + n2) + 1 := by omega
    rw [hn]
    simp [GameOutputSound, ih (phaseStep tSine)]

theorem FillLoop_length : ∀ (n SampleIndex : Nat), (FillLoop SampleIndex n).1.length = 2 * n := by
  intro n
  induction n with
  | zero => intro s; rfl
  | succ n ih =>
    intro s
    simp only [FillLoop, List.length_cons, ih ((s + 1) % DWORD_MOD)]
    omega

theorem FillLoop_snd : ∀ (n SampleIndex : Nat), SampleIndex < DWORD_MOD →
    (FillLoop SampleIndex n).2 = (SampleIndex + n) % DWORD_MOD := by
  intro n
  induction n with
  | zero =>
    intro s hs
    simp only [FillLoop, Nat.add_zero, Nat.mod_eq_of_lt hs]
  | succ n ih =>
    intro s hs
    have hs1 : (s + 1) % DWORD_MOD < DWORD_MOD := Nat.mod_lt _ (by decide)
    simp only [FillLoop, ih ((s + 1) % DWORD_MOD) hs1, Nat.mod_add_mod]
    congr 1
    omega

theorem FillLoop_fst : ∀ (n SampleIndex : Nat), SampleIndex < DWORD_MOD →
    (FillLoop SampleIndex n).1
      = (List.range n).flatMap fun i =>
          [SquareSampleValue ((SampleIndex + i) % DWORD_MOD),
           SquareSampleValue ((SampleIndex + i) % DWORD_MOD)] := by
  intro n
  induction n with
  | zero => intro s hs; rfl
  | succ n ih =>
    intro s hs
    have hs1 : (s + 1) % DWORD_MOD < DWORD_MOD := Nat.mod_lt _ (by decide)
    have he : ∀ i : Nat, s + 1 + i = s + (i + 1) := fun i => by omega
    simp only [FillLoop, ih ((s + 1) % DWORD_MOD) hs1, List.range_succ_eq_map,
      List.flatMap_cons, List.flatMap_map, Nat.succ_eq_add_one, Nat.add_zero,
      Nat.mod_eq_of_lt hs, List.cons_append, List.nil_append, Nat.mod_add_mod, he]

theorem ProcessRegions_fst (SampleIndex Region1Size Region2Size : Nat)
    (h : SampleIndex < DWORD_MOD) :
    (ProcessRegions SampleIndex Region1Size Region2Size).1
      = (List.range (Region1Size / BytesPerSample + Region2Size / BytesPerSample)).flatMap
          fun i => [SquareSampleValue ((SampleIndex + i) % DWORD_MOD),
                    SquareSampleValue ((SampleIndex + i) % DWORD_MOD)] := by
  have h1 : (SampleIndex + Region1Size / BytesPerSample) % DWORD_MOD < DWORD_MOD :=
    Nat.mod_lt _ (by decide)
  unfold ProcessRegions
  rw [FillLoop_snd _ _ h, FillLoop_fst _ _ h, FillLoop_fst _ _ h1]
  rw [List.range_add, List.flatMap_append, List.flatMap_map]
  simp only [Nat.mod_add_mod, Nat.add_assoc]

/-- Claim C6: throughout the frame loop, (sampleIndex * bytesPerSample) mod
    bufferSizeBytes (in the uint32 arithmetic of the state) is the byte offset the
    code passes to Lock, identifying the next byte the application will write; a
    successful lock and fill advances SampleIndex by exactly the number of sample
    frames written into the two returned regions (Region1Size / BytesPerSample plus
    Region2Size / BytesPerSample, each frame contributing two int16 values to the
    output), and when the lock is denied SampleIndex is left unchanged and nothing
    is written that frame. -/
theorem C6_sample_index_advance (SampleIndex Region1Size Region2Size : Nat)
    (h : SampleIndex < DWORD_MOD) :
    FrameSoundStep SampleIndex none = ([], SampleIndex) ∧
    (FrameSoundStep SampleIndex (some (Region1Size, Region2Size))).2
      = (SampleIndex + (Region1Size / BytesPerSample + Region2Size / BytesPerSample))
          % DWORD_MOD ∧
    (FrameSoundStep SampleIndex (some (Region1Size, Region2Size))).1.length
      = 2 * (Region1Size / BytesPerSample + Region2Size / BytesPerSample) ∧
    BytesToLock SampleIndex = SampleIndex * BytesPerSample % DWORD_MOD % SoundBufferSize := by
  have h1 : (SampleIndex + Region1Size / BytesPerSample) % DWORD_MOD < DWORD_MOD :=
    Nat.mod_lt _ (by decide)
  refine ⟨rfl, ?_, ?_, rfl⟩
  · show (ProcessRegions SampleIndex Region1Size Region2Size).2 = _
    unfold ProcessRegions
    rw [FillLoop_snd _ _ h, FillLoop_snd _ _ h1, Nat.mod_add_mod]
    congr 1
    omega
  · show (ProcessRegions SampleIndex Region1Size Region2Size).1.length = _
    unfold ProcessRegions
    rw [List.length_append, FillLoop_length, FillLoop_length]
    omega

theorem C6_sample_index_advance_witness :
    5 < DWORD_MOD ∧
    (FrameSoundStep 5 none = ([], 5) ∧
     (FrameSoundStep 5 (some (8, 4))).2 = (5 + (8 / BytesPerSample + 4 / BytesPerSample))
       % DWORD_MOD ∧
     (FrameSoundStep 5 (some (8, 4))).1.length = 2 * (8 / BytesPerSample + 4 / BytesPerSample) ∧
     BytesToLock 5 = 5 * BytesPerSample % DWORD_MOD % SoundBufferSize) :=
  ⟨by decide, C6_sample_index_advance 5 8 4 (by decide)⟩

/-- Claim C10: every sample frame the frame loop writes is a pure function of the
    running SampleIndex alone — 16000 when SampleIndex / (SquareWavePeriod / 2) is
    odd and -16000 otherwise, written identically to the left and right channels
    (frame i of a fill starting at SampleIndex carries the value for SampleIndex + i,
    as uint32) — so the generated waveform depends only on the total frame count,
    not on how the write is split between the two lock regions. -/
theorem C10_square_wave_pure (SampleIndex R1a R2a R1b R2b i : Nat)
    (h : SampleIndex < DWORD_MOD)
    (hsplit : R1a / BytesPerSample + R2a / BytesPerSample
      = R1b / BytesPerSample + R2b / BytesPerSample) :
    (ProcessRegions SampleIndex R1a R2a).1
      = (List.range (R1a / BytesPerSample + R2a / BytesPerSample)).flatMap
          (fun j => [SquareSampleValue ((SampleIndex + j) % DWORD_MOD),
                     SquareSampleValue ((SampleIndex + j) % DWORD_MOD)]) ∧
    (ProcessRegions SampleIndex R1a R2a).1 = (ProcessRegions SampleIndex R1b R2b).1 ∧
    SquareSampleValue i
      = if Odd (i / (SquareWavePeriod / 2)) then 16000 else -16000 := by
  refine ⟨ProcessRegions_fst _ _ _ h, ?_, ?_⟩
  · rw [ProcessRegions_fst _ _ _ h, ProcessRegions_fst _ _ _ h, hsplit]
  · unfold SquareSampleValue
    have hiff : i / (SquareWavePeriod / 2) % 2 ≠ 0 ↔ Odd (i / (SquareWavePeriod / 2)) := by
      rw [Nat.odd_iff]
      omega
    exact if_congr hiff rfl rfl

theorem C10_square_wave_pure_witness :
    0 < DWORD_MOD ∧
    (8 / BytesPerSample + 4 / BytesPerSample = 0 / BytesPerSample + 12 / BytesPerSample) ∧
    ((ProcessRegions 0 8 4).1
       = (List.range (8 / BytesPerSample + 4 / BytesPerSample)).flatMap
           (fun j => [SquareSampleValue ((0 + j) % DWORD_MOD),
                      SquareSampleValue ((0 + j) % DWORD_MOD)]) ∧
     (ProcessRegions 0 8 4).1 = (ProcessRegions 0 0 12).1 ∧
     SquareSampleValue 100 = if Odd (100 / (SquareWavePeriod / 2)) then 16000 else -16000) :=
  ⟨by decide, by decide, C10_square_wave_pure 0 8 4 0 12 100 (by decide) (by decide)⟩

/-
The framebuffer (entry.cpp lines 214-302) and the per-iteration control flow of
the frame loop (entry.cpp lines 459-644).
-/

/-- entry.cpp lines 214-221: the offscreen buffer.  The raw pixel pointer is
    modelled as an Option, none standing for a null pointer.  The int dimensions
    are modelled as Nat; in the program they are only ever set to the nonnegative
    initial window size. -/
structure OffscreenBuffer where
  data : Option Nat
  width : Nat
  height : Nat
  bpp : Nat
  pitch : Nat

/-- entry.cpp line 222: the global backBuffer is zero-initialized (null data,
    zero dimensions) with the default member values bpp = 4 and pitch = 0. -/
def backBufferInit : OffscreenBuffer :=
  { data := none, width := 0, height := 0, bpp := 4, pitch := 0 }

/-- entry.cpp lines 250-302, ResizeDIBSection.  VirtualAlloc is modelled by the
    parameter alloc from the requested byte size to an optional allocation.  The
    code frees any old data, stores the new width and height, allocates
    width * height * bpp bytes, and then: on failure (null) it returns early —
    data stays null, pitch keeps its previous value, and the void return reports
    nothing to the caller; on success it stores the allocation and sets
    pitch = width * bpp. -/
def ResizeDIBSection (alloc : Nat → Option Nat) (buffer : OffscreenBuffer)
    (width height : Nat) : OffscreenBuffer :=
  match alloc (width * height * buffer.bpp) with
  | none => { buffer with data := none, width := width, height := height }
  | some p =>
    { buffer with
      data := some p
      width := width
      height := height
      pitch := width * buffer.bpp }

/-- entry.cpp lines 240-243: the 32-bit pixel value written at column x, row y.
    The casts to uint8_t reduce the int sums modulo 256; the shifted byte lanes
    are disjoint, so the bitwise ors are additions. -/
def GradPixel (x y : Nat) (xOffset yOffset : Int) : Nat :=
  (((x : Int) + xOffset) % 256).toNat * 65536 + (((y : Int) + yOffset) % 256).toNat * 256 +
    (((y : Int) + yOffset) % 256).toNat

/-- entry.cpp lines 231-247, RenderGradiant: the sequence of 32-bit stores the
    function performs, as pairs of the byte offset from buffer.data and the value
    stored there.  Row y starts at byte y * pitch; the pixel pointer advances 4
    bytes per column.  The code never tests buffer.data for null: the same stores
    are attempted whatever data is, which on a null pointer is a fault. -/
def RenderGradiant (buffer : OffscreenBuffer) (xOffset yOffset : Int) : List (Nat × Nat) :=
  (List.range buffer.height).flatMap fun y =>
    (List.range buffer.width).map fun x =>
      (y * buffer.pitch + 4 * x, GradPixel x y xOffset yOffset)

theorem RenderGradiant_length (buffer : OffscreenBuffer) (xOffset yOffset : Int) :
    (RenderGradiant buffer xOffset yOffset).length = buffer.height * buffer.width := by
  unfold RenderGradiant
  induction buffer.height with
  | zero => simp
  | succ n ih =>
    rw [List.range_succ, List.flatMap_append, List.length_append, ih]
    simp only [List.flatMap_cons, List.flatMap_nil, List.append_nil, List.length_map,
      List.length_range]
    ring

/-- Claim C8: the claim matches the stated contract but the code does not.  After a
    ResizeDIBSection call whose allocation fails, the buffer is left with null data
    (and nothing is reported: the function returns void), yet RenderGradiant on that
    buffer is not a no-op: it still attempts one 32-bit store per pixel — here
    800 * 600 = 480000 stores through the null pointer.  The comments at entry.cpp
    lines 276-290 flag exactly this as a known crash, so the code, not the claim,
    is at fault. -/
theorem C8_alloc_failure_render_not_noop :
    (ResizeDIBSection (fun _ => none) backBufferInit 800 600).data = none ∧
    (RenderGradiant (ResizeDIBSection (fun _ => none) backBufferInit 800 600) 0 0).length
      = 480000 ∧
    (480000 : Nat) ≠ 0 := by
  refine ⟨rfl, ?_, by decide⟩
  rw [RenderGradiant_length]
  rfl

/-- Outcome of the GetCurrentPosition query at entry.cpp line 558: either it fails
    or it reports the hardware play and write cursors. -/
inductive CursorQuery where
  | failed : CursorQuery
  | ok : Nat → Nat → CursorQuery

/-- What one iteration of the WinMain while loop does after the input polling:
    whether the sound buffer was filled and whether the back buffer was presented
    to the window (the DrawBuffer call at entry.cpp line 640). -/
structure IterationEffects where
  soundFilled : Bool
  videoPresented : Bool

/-- entry.cpp lines 555-641, the tail of one frame-loop iteration.  With a sound
    buffer present, a failed cursor query runs the continue on line 562, which
    jumps to the next while iteration: the fill is skipped and so is the DrawBuffer
    call on line 640.  On a successful query the fill happens exactly when the Lock
    succeeds, and DrawBuffer always runs.  Without a sound buffer only DrawBuffer
    runs. -/
def iterationEffects (hasSoundBuffer : Bool) (query : CursorQuery)
    (lockGranted : Bool) : IterationEffects :=
  match hasSoundBuffer, query with
  | true, CursorQuery.failed => { soundFilled := false, videoPresented := false }
  | true, CursorQuery.ok _ _ => { soundFilled := lockGranted, videoPresented := true }
  | false, _ => { soundFilled := false, videoPresented := true }

/-- Claim C7 counterexample: when the play-cursor query fails, the continue
    statement skips the rest of the iteration, so the framebuffer is NOT presented
    during that iteration — videoPresented is false, where the claim requires
    true. -/
theorem C7_query_failure_counterexample :
    (iterationEffects true CursorQuery.failed true).videoPresented = false := rfl

/-- Claim C7 amended: when the hardware play-cursor query fails in a frame, that
    frame's entire remaining iteration is skipped via continue: the sound fill does
    not happen and the video framebuffer is not presented to the window during the
    same iteration either (it is presented again only on the next iteration). -/
theorem C7_query_failure_skips_present (lockGranted : Bool) :
    iterationEffects true CursorQuery.failed lockGranted
      = { soundFilled := false, videoPresented := false } := rfl
